import Mathlib

/-!
Shallow embedding of `src/spacy_llm/backends/rest/backend.py` (class `Backend`),
a REST client for the OpenAI completions endpoint.

Modelling conventions:
* Parsed JSON values (what `requests.post(...).json()` yields and what the
  config dict holds) are modelled by the inductive type `Json`.  Python dicts
  are association lists with unique keys, in insertion order.
* The network is a parameter `net : Nat → Request → AttemptOutcome`: attempt
  number `i` with request data `req` either fails with an exception caught by
  the `except ConnectionError` clause (`connFail`), returns a parsed JSON
  response (`success r`), or raises some other exception which the code does
  not catch (`otherExc`).
* Python runtime errors raised by the method (`ValueError`, `ConnectionError`,
  `KeyError`, `TypeError`, `AssertionError`, uncaught exceptions from the
  request) are the error type `CallError`; the method itself is a function
  into `Except CallError (List Json)`.
* `srsly.json_dumps` is modelled by a concrete compact JSON serializer
  `json_dumps`; the Python `str()` rendering used by f-string interpolation of
  a response dict is modelled by `pyRepr`.  Their exact output format is out of
  scope (the spec excludes serialization-library specifics); all claims use
  them as the (fixed, injectively applied) serialization functions.
* The `Authorization` header reads an API key from the process environment;
  no claim depends on it, so headers are not part of `Request`.
-/

/-- Parsed JSON values, as produced by `.json()` on a response and as stored
in the backend config dict. -/
inductive Json where
  | null
  | bool (b : Bool)
  | num (n : Int)
  | str (s : String)
  | arr (elems : List Json)
  | obj (fields : List (String × Json))
deriving BEq

/-- Python runtime errors that `Backend.__init__` / `Backend._call_openai`
can raise. -/
inductive CallError where
  | valueError (msg : String)
  | connectionError (msg : String)
  | keyError (key : String)
  | typeError (msg : String)
  | assertionError
  | otherError (msg : String)
deriving BEq

mutual

/-- Model of `srsly.json_dumps`: compact JSON serialization (string-escaping
details inside string payloads are out of scope). -/
def json_dumps : Json → String
  | .null => "null"
  | .bool true => "true"
  | .bool false => "false"
  | .num n => toString n
  | .str s => "\x22" ++ s ++ "\x22"
  | .arr elems => "[" ++ String.intercalate "," (jsonDumpsList elems) ++ "]"
  | .obj fields => "\x7b" ++ String.intercalate "," (jsonDumpsFields fields) ++ "\x7d"

/-- Serializes each element of a JSON array. -/
def jsonDumpsList : List Json → List String
  | [] => []
  | j :: rest => json_dumps j :: jsonDumpsList rest

/-- Serializes each key/value pair of a JSON object. -/
def jsonDumpsFields : List (String × Json) → List String
  | [] => []
  | (k, v) :: rest => ("\x22" ++ k ++ "\x22:" ++ json_dumps v) :: jsonDumpsFields rest

end

mutual

/-- Model of Python `str()` applied to a parsed-JSON value (used by the
f-string `f"API call failed: \x7bresponses\x7d."`). -/
def pyRepr : Json → String
  | .null => "None"
  | .bool true => "True"
  | .bool false => "False"
  | .num n => toString n
  | .str s => "\x27" ++ s ++ "\x27"
  | .arr elems => "[" ++ String.intercalate ", " (pyReprList elems) ++ "]"
  | .obj fields => "\x7b" ++ String.intercalate ", " (pyReprFields fields) ++ "\x7d"

/-- Renders each element of a Python list. -/
def pyReprList : List Json → List String
  | [] => []
  | j :: rest => pyRepr j :: pyReprList rest

/-- Renders each key/value pair of a Python dict. -/
def pyReprFields : List (String × Json) → List String
  | [] => []
  | (k, v) :: rest => ("\x27" ++ k ++ "\x27: " ++ pyRepr v) :: pyReprFields rest

end

/-- Python `k in s` for strings (substring containment). -/
def strContains (s k : String) : Bool :=
  k == "" || (s.splitOn k).length != 1

/-- Python `k in x` for a string key `k`: key membership for dicts, element
membership for lists, substring test for strings, `TypeError` otherwise. -/
def pyContains : Json → String → Except CallError Bool
  | .obj fields, k => .ok (fields.any (fun p => p.1 == k))
  | .arr elems, k => .ok (elems.any (fun j => j == Json.str k))
  | .str s, k => .ok (strContains s k)
  | _, _ => .error (.typeError "argument of type is not iterable")

/-- Python `x[k]` for a string key `k`: dict lookup raising `KeyError` when
the key is absent, `TypeError` on non-dict values (list and string subscripts
must be integers). -/
def pySubscript (j : Json) (k : String) : Except CallError Json :=
  match j with
  | .obj fields =>
    match fields.find? (fun p => p.1 == k) with
    | some p => .ok p.2
    | none => .error (.keyError k)
  | _ => .error (.typeError "indices must be integers")

/-- Python `len(x)`: length of lists, strings and dicts, `TypeError`
otherwise. -/
def pyLen : Json → Except CallError Nat
  | .arr elems => .ok elems.length
  | .str s => .ok s.length
  | .obj fields => .ok fields.length
  | _ => .error (.typeError "object has no len")

/-- Python iteration over a value known to support `len()`: list elements,
string characters, dict keys. -/
def pyIter : Json → List Json
  | .arr elems => elems
  | .str s => s.toList.map (fun c => Json.str (String.singleton c))
  | .obj fields => fields.map (fun p => Json.str p.1)
  | _ => []

/-- Python dict insertion `d[k] = v`: overwrite in place when the key is
present (dict keys are unique, so at most one entry matches and insertion
order is kept), append otherwise. -/
def dictInsert : List (String × Json) → String → Json → List (String × Json)
  | [], k, v => [(k, v)]
  | p :: rest, k, v =>
    if p.1 == k then (k, v) :: rest else p :: dictInsert rest k v

/-- Python dict construction `\x7b**d1, **d2\x7d`: entries of `d2` are inserted
into `d1` one by one, later values overriding earlier ones. -/
def dictMerge (d1 d2 : List (String × Json)) : List (String × Json) :=
  d2.foldl (fun acc p => dictInsert acc p.1 p.2) d1

/-- First-occurrence dict lookup, `none` when the key is absent. -/
def dictGet (d : List (String × Json)) (k : String) : Option Json :=
  (d.find? (fun p => p.1 == k)).map Prod.snd

/-- Last-occurrence dict lookup (for a genuine Python dict, whose keys are
unique, it agrees with `dictGet`). -/
def dictGetLast (d : List (String × Json)) (k : String) : Option Json :=
  (d.reverse.find? (fun p => p.1 == k)).map Prod.snd

/-- `Backend._SUPPORTED_APIS` from the source: `("OpenAI",)`. -/
def SUPPORTED_APIS : List String := ["OpenAI"]

/-- Python `repr` of the tuple `Backend._SUPPORTED_APIS`, as interpolated into
the construction-time error message. -/
def supportedApisRepr : String := "(\x27OpenAI\x27,)"

/-- `Backend._DEFAULT_URLS` from the source. -/
def DEFAULT_URLS : List (String × String) :=
  [("OpenAI", "https://api.openai.com/v1/completions")]

/-- The state of a constructed `Backend` instance: the attributes set by
`Backend.__init__` (`self._api`, `self._config`, `self._strict`,
`self._max_tries`, `self._timeout`, `self._url`).  The dispatch dict
`self._calls` maps `"OpenAI"` to the bound method `_call_openai` and is
determined by `api`, so it is not a separate field; `Backend.call` models the
lookup. -/
structure Backend where
  api : String
  config : List (String × Json)
  strict : Bool
  max_tries : Nat
  timeout : Nat
  url : Json
deriving BEq

/-- Model of `Backend.__init__`: rejects an unsupported API name with a
`ValueError` naming it, pops `"url"` out of the config dict when present
(falling back to the provider default URL otherwise) and stores the
configuration.  Construction involves no network interaction: the model takes
no network parameter, just as the source method performs no request. -/
def Backend.init (api : String) (config : List (String × Json)) (strict : Bool)
    (max_tries : Nat) (timeout : Nat) : Except CallError Backend :=
  if api ∈ SUPPORTED_APIS then
    match config.find? (fun p => p.1 == "url") with
    | some p =>
      .ok { api := api, config := config.eraseP (fun q => q.1 == "url"),
            strict := strict, max_tries := max_tries, timeout := timeout,
            url := p.2 }
    | none =>
      .ok { api := api, config := config, strict := strict,
            max_tries := max_tries, timeout := timeout,
            url := Json.str (((DEFAULT_URLS.find? (fun q => q.1 == api)).map
              Prod.snd).getD "") }
  else
    .error (.valueError
      (api ++ " is not one of the supported APIs (" ++ supportedApisRepr ++ ")."))

/-- The data of one `requests.post` call: target URL, JSON body and timeout.
The headers (content type and the bearer token read from the environment) are
constant per process and carried by no claim, so they are omitted. -/
structure Request where
  url : Json
  body : List (String × Json)
  timeout : Nat

/-- Outcome of one network attempt: an exception caught by the
`except ConnectionError` clause, a parsed JSON response, or any other
exception (which the loop does not catch). -/
inductive AttemptOutcome where
  | connFail
  | success (response : Json)
  | otherExc (msg : String)

/-- The request body `json_data = \x7b"prompt": prompts, **self._config\x7d`. -/
def buildJsonData (config : List (String × Json)) (prompts : List String) :
    List (String × Json) :=
  dictMerge [("prompt", Json.arr (prompts.map Json.str))] config

/-- The request issued by every attempt of `_call_openai`. -/
def requestOf (b : Backend) (prompts : List String) : Request :=
  { url := b.url, body := buildJsonData b.config prompts, timeout := b.timeout }

/-- The retry loop `for request_tries in range(self._max_tries): ...`.
`i` is the next loop index, `fuel` the remaining iterations, `request_tries`
the current value of the Python variable (0 before the first iteration, then
the last assigned index) and `responses` the current value of the variable of
that name (the empty dict until an attempt succeeds).  A successful attempt
stores the parsed response and breaks; a connection failure is swallowed and
the loop continues; any other exception propagates. -/
def queryLoopAux (net : Nat → Request → AttemptOutcome) (req : Request) :
    Nat → Nat → Nat → Json → Except CallError (Nat × Json)
  | _, 0, request_tries, responses => .ok (request_tries, responses)
  | i, fuel + 1, _, responses =>
    match net i req with
    | .success r => .ok (i, r)
    | .connFail => queryLoopAux net req (i + 1) fuel i responses
    | .otherExc m => .error (.otherError m)

/-- The whole query phase: `request_tries = 0`, `responses = \x7b\x7d`, then the
retry loop.  Returns the final values of `request_tries` and `responses`. -/
def queryLoop (net : Nat → Request → AttemptOutcome) (req : Request)
    (max_tries : Nat) : Except CallError (Nat × Json) :=
  queryLoopAux net req 0 max_tries 0 (Json.obj [])

/-- The connectivity error message raised by `_call_openai` when
`request_tries == self._max_tries`. -/
def connErrorMsg (timeout max_tries : Nat) : String :=
  "OpenAI API could not be reached within " ++ toString timeout ++
    " seconds in " ++ toString max_tries ++
    " attempts. Check your network connection and the availability of the OpenAI API."

/-- The response-processing loop
`for prompt, response in zip(prompts, responses["choices"]): ...`:
each entry with a `"text"` member contributes that member, any other entry is
serialized whole.  A `TypeError` from `in` on a non-container entry
propagates. -/
def processChoices : List Json → Except CallError (List Json)
  | [] => .ok []
  | c :: rest => do
    let hasText ← pyContains c "text"
    let out ← if hasText then pySubscript c "text" else pure (Json.str (json_dumps c))
    let outs ← processChoices rest
    return out :: outs

/-- The `# Process responses.` segment of `_call_openai`: take the error
branch when `"error" in responses` (raising `ValueError` in strict mode,
returning the serialized payload once per prompt otherwise); otherwise assert
`len(responses["choices"]) == len(prompts)` and process the entries of
`zip(prompts, responses["choices"])` positionally. -/
def processResponses (b : Backend) (prompts : List String) (responses : Json) :
    Except CallError (List Json) :=
  match pyContains responses "error" with
  | .error e => .error e
  | .ok true =>
    if b.strict then
      .error (.valueError ("API call failed: " ++ pyRepr responses ++ "."))
    else
      .ok (List.replicate prompts.length (Json.str (json_dumps responses)))
  | .ok false =>
    match pySubscript responses "choices" with
    | .error e => .error e
    | .ok choices =>
      match pyLen choices with
      | .error e => .error e
      | .ok n =>
        if n = prompts.length then
          processChoices ((pyIter choices).take prompts.length)
        else
          .error .assertionError

/-- Model of `Backend._call_openai`, statement by statement: build the request
body, run the retry loop, raise the connectivity error when
`request_tries == self._max_tries`, then process the responses. -/
def callOpenai (b : Backend) (net : Nat → Request → AttemptOutcome)
    (prompts : List String) : Except CallError (List Json) :=
  let req := requestOf b prompts
  match queryLoop net req b.max_tries with
  | .error e => .error e
  | .ok (request_tries, responses) =>
    if request_tries = b.max_tries then
      .error (.connectionError (connErrorMsg b.timeout b.max_tries))
    else
      processResponses b prompts responses

/-- Model of `Backend.__call__`: dispatch through `self._calls[self._api]`
(whose only entry is `"OpenAI" -> self._call_openai`; a missing key would be a
`KeyError`, unreachable after construction). -/
def Backend.call (b : Backend) (net : Nat → Request → AttemptOutcome)
    (prompts : List String) : Except CallError (List Json) :=
  if b.api == "OpenAI" then callOpenai b net prompts
  else .error (.keyError b.api)

/-- State-threaded form of the call: a statement-by-statement translation of
`_call_openai` threads `self` through every statement; since the method
assigns no attribute and the dict unpacking `\x7b"prompt": prompts,
**self._config\x7d` copies `self._config` rather than mutating it, every
statement passes the instance through unchanged. -/
def callOpenaiWithState (b : Backend) (net : Nat → Request → AttemptOutcome)
    (prompts : List String) : Except CallError (List Json) × Backend :=
  (Backend.call b net prompts, b)

/-- The value `_call_openai` contributes to the output batch for one choices
entry that is a JSON object: the value of its `"text"` field when present,
the serialized whole entry otherwise. -/
def choiceOut : Json → Json
  | .obj fields =>
    match fields.find? (fun p => p.1 == "text") with
    | some p => p.2
    | none => Json.str (json_dumps (Json.obj fields))
  | c => Json.str (json_dumps c)

/-- If every attempt before `i` fails with a connection failure and attempt
`i` succeeds with response `r` inside the loop bound, the loop stops at
`(i, r)`. -/
theorem queryLoopAux_firstSuccess (net : Nat → Request → AttemptOutcome)
    (req : Request) (r : Json) :
    ∀ (k i fuel rt : Nat) (resp : Json),
      (∀ j, j < k → net (i + j) req = .connFail) →
      net (i + k) req = .success r → k < fuel →
      queryLoopAux net req i fuel rt resp = .ok (i + k, r) := by
  intro k
  induction k with
  | zero =>
    intro i fuel rt resp hfail hsucc hlt
    obtain ⟨fuel, rfl⟩ : ∃ f, fuel = f + 1 := ⟨fuel - 1, by omega⟩
    rw [Nat.add_zero] at hsucc
    simp [queryLoopAux, hsucc]
  | succ k ih =>
    intro i fuel rt resp hfail hsucc hlt
    obtain ⟨fuel, rfl⟩ : ∃ f, fuel = f + 1 := ⟨fuel - 1, by omega⟩
    have h0 : net i req = .connFail := by
      have := hfail 0 (by omega)
      simpa using this
    have hrec := ih (i + 1) fuel i resp
      (by
        intro j hj
        have := hfail (j + 1) (by omega)
        rw [show i + 1 + j = i + (j + 1) by omega]
        exact this)
      (by
        rw [show i + 1 + k = i + (k + 1) by omega]
        exact hsucc)
      (by omega)
    simp only [queryLoopAux, h0]
    rw [hrec, show i + 1 + k = i + (k + 1) by omega]

/-- Whole-loop version of `queryLoopAux_firstSuccess`. -/
theorem queryLoop_firstSuccess (net : Nat → Request → AttemptOutcome)
    (req : Request) (r : Json) (i max_tries : Nat)
    (hfail : ∀ j, j < i → net j req = .connFail)
    (hsucc : net i req = .success r) (hlt : i < max_tries) :
    queryLoop net req max_tries = .ok (i, r) := by
  have := queryLoopAux_firstSuccess net req r i 0 max_tries 0 (Json.obj [])
    (by intro j hj; simpa using hfail j hj) (by simpa using hsucc) hlt
  simpa [queryLoop] using this

/-- If every attempt fails with a connection failure, the loop runs out and
leaves `request_tries` at the last index and `responses` untouched. -/
theorem queryLoopAux_allFail (net : Nat → Request → AttemptOutcome)
    (req : Request) (hfail : ∀ j, net j req = .connFail) :
    ∀ (fuel i rt : Nat) (resp : Json),
      queryLoopAux net req i (fuel + 1) rt resp = .ok (i + fuel, resp) := by
  have hstep : ∀ (i fuel rt : Nat) (resp : Json),
      queryLoopAux net req i (fuel + 1) rt resp =
        queryLoopAux net req (i + 1) fuel i resp := by
    intro i fuel rt resp
    simp [queryLoopAux, hfail i]
  intro fuel
  induction fuel with
  | zero =>
    intro i rt resp
    rw [hstep i 0 rt resp]
    simp [queryLoopAux]
  | succ fuel ih =>
    intro i rt resp
    rw [hstep i (fuel + 1) rt resp, ih (i + 1) i resp,
      show i + 1 + fuel = i + (fuel + 1) by omega]

/-- Whole-loop version of `queryLoopAux_allFail`: with `max_tries = m + 1`
attempts all failing, the loop ends with `request_tries = m` (one less than
`max_tries`) and `responses` still the empty dict. -/
theorem queryLoop_allFail (net : Nat → Request → AttemptOutcome)
    (req : Request) (m : Nat) (hfail : ∀ j, net j req = .connFail) :
    queryLoop net req (m + 1) = .ok (m, Json.obj []) := by
  have := queryLoopAux_allFail net req hfail m 0 0 (Json.obj [])
  simpa [queryLoop] using this

/-- After a successful attempt inside the loop bound, the call reduces to the
response-processing segment applied to the parsed response. -/
theorem call_eq_processResponses (b : Backend)
    (net : Nat → Request → AttemptOutcome) (prompts : List String)
    (i : Nat) (r : Json) (hapi : b.api = "OpenAI")
    (hfail : ∀ j, j < i → net j (requestOf b prompts) = .connFail)
    (hsucc : net i (requestOf b prompts) = .success r)
    (hlt : i < b.max_tries) :
    Backend.call b net prompts = processResponses b prompts r := by
  have hq := queryLoop_firstSuccess net (requestOf b prompts) r i b.max_tries
    hfail hsucc hlt
  have hne : ¬(i = b.max_tries) := by omega
  simp [Backend.call, hapi, callOpenai, hq, hne]

/-- C1: the connectivity error is dead code.  When every one of `max_tries ≥ 1`
attempts fails with a connection failure, the loop leaves
`request_tries = max_tries - 1`, so the guard `request_tries == max_tries`
is false; the call falls through to response processing with the still-empty
`responses` dict and raises `KeyError: choices` instead of the documented
`ConnectionError` naming the timeout and the attempt count. -/
theorem call_persistent_connfail_raises_keyerror (b : Backend)
    (net : Nat → Request → AttemptOutcome) (prompts : List String)
    (hapi : b.api = "OpenAI") (hmt : 1 ≤ b.max_tries)
    (hfail : ∀ j, net j (requestOf b prompts) = .connFail) :
    Backend.call b net prompts = .error (.keyError "choices") := by
  obtain ⟨m, hm⟩ : ∃ m, b.max_tries = m + 1 := ⟨b.max_tries - 1, by omega⟩
  have hq : queryLoop net (requestOf b prompts) b.max_tries =
      .ok (m, Json.obj []) := by
    rw [hm]
    exact queryLoop_allFail net (requestOf b prompts) m hfail
  have hne : ¬(m = b.max_tries) := by omega
  simp [Backend.call, hapi, callOpenai, hq, hne, processResponses, pyContains,
    pySubscript]

/-- Concrete run of `call_persistent_connfail_raises_keyerror`: two attempts,
both connection failures, one prompt. -/
def backendC1 : Backend :=
  { api := "OpenAI", config := [], strict := true, max_tries := 2,
    timeout := 30, url := Json.str "https://api.openai.com/v1/completions" }

/-- A network on which every attempt fails with a connection failure. -/
def netAllConnFail : Nat → Request → AttemptOutcome := fun _ _ => .connFail

/-- Witness for C1's theorem at a concrete input. -/
theorem call_persistent_connfail_raises_keyerror_witness :
    Backend.call backendC1 netAllConnFail ["A"] = .error (.keyError "choices") :=
  call_persistent_connfail_raises_keyerror backendC1 netAllConnFail ["A"]
    rfl (by decide) (fun _ => rfl)

/-- When every entry of the choices list is a JSON object, the processing
loop succeeds and maps each entry to its `"text"` value or its serialized
form. -/
theorem processChoices_objs : ∀ (l : List Json),
    (∀ c ∈ l, ∃ fs, c = Json.obj fs) →
    processChoices l = .ok (l.map choiceOut) := by
  intro l
  induction l with
  | nil => intro _; simp [processChoices]
  | cons c rest ih =>
    intro h
    obtain ⟨fs, rfl⟩ := h c (by simp)
    have hrest := ih (fun x hx => h x (by simp [hx]))
    by_cases hany : fs.any (fun p => p.1 == "text") = true
    · have hsome : (fs.find? (fun p => p.1 == "text")).isSome := by
        rw [List.find?_isSome]
        obtain ⟨x, hx, hpx⟩ := List.any_eq_true.mp hany
        exact ⟨x, hx, hpx⟩
      obtain ⟨p, hp⟩ := Option.isSome_iff_exists.mp hsome
      simp [processChoices, pyContains, hany, pySubscript, hp, hrest,
        choiceOut, Bind.bind, Except.bind, Pure.pure, Except.pure]
    · have hnone : fs.find? (fun p => p.1 == "text") = none := by
        rw [List.find?_eq_none]
        intro x hx hpx
        exact hany (List.any_eq_true.mpr ⟨x, hx, hpx⟩)
      simp [processChoices, pyContains, hany, hrest, choiceOut, hnone,
        Bind.bind, Except.bind, Pure.pure, Except.pure]

/-- C2: when an attempt succeeds with a parsed response containing the key
`error` and the client is strict, the call raises
`ValueError(f"API call failed: ...")` whose message embeds the full rendered
payload, and no output batch is returned. -/
theorem strict_error_response_raises_valueerror (b : Backend)
    (net : Nat → Request → AttemptOutcome) (prompts : List String)
    (i : Nat) (r : Json) (hapi : b.api = "OpenAI") (hstrict : b.strict = true)
    (hfail : ∀ j, j < i → net j (requestOf b prompts) = .connFail)
    (hsucc : net i (requestOf b prompts) = .success r) (hlt : i < b.max_tries)
    (herr : pyContains r "error" = .ok true) :
    Backend.call b net prompts =
      .error (.valueError ("API call failed: " ++ pyRepr r ++ ".")) ∧
    ∃ pre post,
      "API call failed: " ++ pyRepr r ++ "." = pre ++ pyRepr r ++ post := by
  constructor
  · rw [call_eq_processResponses b net prompts i r hapi hfail hsucc hlt]
    simp [processResponses, herr, hstrict]
  · exact ⟨"API call failed: ", ".", rfl⟩

/-- Concrete error payload used by the C2 witness. -/
def respErrC2 : Json := Json.obj [("error", Json.obj [("code", Json.num 500)])]

/-- Concrete strict backend used by the C2 witness. -/
def backendC2 : Backend :=
  { api := "OpenAI", config := [], strict := true, max_tries := 1,
    timeout := 30, url := Json.str "https://api.openai.com/v1/completions" }

/-- A network whose first attempt already returns `respErrC2`. -/
def netC2 : Nat → Request → AttemptOutcome := fun _ _ => .success respErrC2

/-- Witness for C2's theorem at a concrete input. -/
theorem strict_error_response_raises_valueerror_witness :
    Backend.call backendC2 netC2 ["A"] =
      .error (.valueError ("API call failed: " ++ pyRepr respErrC2 ++ ".")) ∧
    ∃ pre post,
      "API call failed: " ++ pyRepr respErrC2 ++ "." =
        pre ++ pyRepr respErrC2 ++ post :=
  strict_error_response_raises_valueerror backendC2 netC2 ["A"] 0 respErrC2
    rfl rfl (fun j hj => absurd hj (Nat.not_lt_zero j)) rfl (by decide) rfl

/-- C3: when an attempt succeeds with a parsed response containing the key
`error` and the client is not strict, the call returns the serialized error
payload once per input prompt: a batch of the same length as the prompt batch
in which every element is the serialized payload. -/
theorem nonstrict_error_response_returns_batch (b : Backend)
    (net : Nat → Request → AttemptOutcome) (prompts : List String)
    (i : Nat) (r : Json) (hapi : b.api = "OpenAI") (hstrict : b.strict = false)
    (hfail : ∀ j, j < i → net j (requestOf b prompts) = .connFail)
    (hsucc : net i (requestOf b prompts) = .success r) (hlt : i < b.max_tries)
    (herr : pyContains r "error" = .ok true) :
    Backend.call b net prompts =
      .ok (List.replicate prompts.length (Json.str (json_dumps r))) ∧
    (List.replicate prompts.length (Json.str (json_dumps r))).length =
      prompts.length ∧
    ∀ x ∈ List.replicate prompts.length (Json.str (json_dumps r)),
      x = Json.str (json_dumps r) := by
  refine ⟨?_, List.length_replicate _ _, fun x hx => List.eq_of_mem_replicate hx⟩
  rw [call_eq_processResponses b net prompts i r hapi hfail hsucc hlt]
  simp [processResponses, herr, hstrict]

/-- Concrete non-strict backend used by the C3 witness. -/
def backendC3 : Backend :=
  { api := "OpenAI", config := [], strict := false, max_tries := 3,
    timeout := 30, url := Json.str "https://api.openai.com/v1/completions" }

/-- Concrete error payload used by the C3 witness. -/
def respErrC3 : Json := Json.obj [("error", Json.str "overloaded")]

/-- A network that fails once, then returns `respErrC3`. -/
def netC3 : Nat → Request → AttemptOutcome :=
  fun i _ => if i = 0 then .connFail else .success respErrC3

/-- Witness for C3's theorem at a concrete input: two prompts, one retry,
both outputs equal the serialized payload. -/
theorem nonstrict_error_response_returns_batch_witness :
    Backend.call backendC3 netC3 ["A", "B"] =
      .ok (List.replicate (["A", "B"] : List String).length
        (Json.str (json_dumps respErrC3))) ∧
    (List.replicate (["A", "B"] : List String).length
      (Json.str (json_dumps respErrC3))).length =
        (["A", "B"] : List String).length ∧
    ∀ x ∈ List.replicate (["A", "B"] : List String).length
        (Json.str (json_dumps respErrC3)),
      x = Json.str (json_dumps respErrC3) :=
  nonstrict_error_response_returns_batch backendC3 netC3 ["A", "B"] 1 respErrC3
    rfl rfl
    (by intro j hj; interval_cases j; rfl)
    rfl (by decide) rfl

/-- Shared success-path reduction: with a reachable error-free response whose
`choices` list matches the prompt count and consists of JSON objects, the
call returns exactly the positional image of the choices list under
`choiceOut`. -/
theorem call_success_eq_map (b : Backend)
    (net : Nat → Request → AttemptOutcome) (prompts : List String)
    (i : Nat) (r : Json) (choices : List Json) (hapi : b.api = "OpenAI")
    (hfail : ∀ j, j < i → net j (requestOf b prompts) = .connFail)
    (hsucc : net i (requestOf b prompts) = .success r) (hlt : i < b.max_tries)
    (herr : pyContains r "error" = .ok false)
    (hch : pySubscript r "choices" = .ok (Json.arr choices))
    (hlen : choices.length = prompts.length)
    (hobjs : ∀ c ∈ choices, ∃ fs, c = Json.obj fs) :
    Backend.call b net prompts = .ok (choices.map choiceOut) := by
  rw [call_eq_processResponses b net prompts i r hapi hfail hsucc hlt]
  have htake : choices.take prompts.length = choices := by
    rw [← hlen]
    exact List.take_length choices
  simp [processResponses, herr, hch, pyLen, pyIter, hlen, htake,
    processChoices_objs choices hobjs]

/-- C4: for a non-empty prompt batch and an error-free response whose
`choices` list has exactly one (object) entry per prompt, the call returns a
batch of the same length in which the `k`-th output is produced from the
`k`-th choices entry. -/
theorem success_choices_positional (b : Backend)
    (net : Nat → Request → AttemptOutcome) (prompts : List String)
    (i : Nat) (r : Json) (choices : List Json) (hapi : b.api = "OpenAI")
    (_hne : prompts ≠ [])
    (hfail : ∀ j, j < i → net j (requestOf b prompts) = .connFail)
    (hsucc : net i (requestOf b prompts) = .success r) (hlt : i < b.max_tries)
    (herr : pyContains r "error" = .ok false)
    (hch : pySubscript r "choices" = .ok (Json.arr choices))
    (hlen : choices.length = prompts.length)
    (hobjs : ∀ c ∈ choices, ∃ fs, c = Json.obj fs) :
    Backend.call b net prompts = .ok (choices.map choiceOut) ∧
    (choices.map choiceOut).length = prompts.length := by
  exact ⟨call_success_eq_map b net prompts i r choices hapi hfail hsucc hlt
    herr hch hlen hobjs, by simpa using hlen⟩

/-- The spec's example response
`\x7b"choices": [\x7b"text": "Hi"\x7d, \x7b"text": "Earth"\x7d]\x7d`. -/
def choicesC4 : List Json :=
  [Json.obj [("text", Json.str "Hi")], Json.obj [("text", Json.str "Earth")]]

/-- The full example response object for the C4 witness. -/
def respC4 : Json := Json.obj [("choices", Json.arr choicesC4)]

/-- Concrete backend used by the C4 witness. -/
def backendC4 : Backend :=
  { api := "OpenAI", config := [], strict := true, max_tries := 1,
    timeout := 30, url := Json.str "https://api.openai.com/v1/completions" }

/-- A network whose first attempt returns `respC4`. -/
def netC4 : Nat → Request → AttemptOutcome := fun _ _ => .success respC4

/-- Witness for C4's theorem at the spec's example: prompts
`["Hello", "World"]` yield outputs `["Hi", "Earth"]`. -/
theorem success_choices_positional_witness :
    Backend.call backendC4 netC4 ["Hello", "World"] =
      .ok [Json.str "Hi", Json.str "Earth"] ∧
    ([Json.str "Hi", Json.str "Earth"] : List Json).length =
      (["Hello", "World"] : List String).length := by
  have h := success_choices_positional backendC4 netC4 ["Hello", "World"]
    0 respC4 choicesC4 rfl (by decide)
    (fun j hj => absurd hj (Nat.not_lt_zero j)) rfl (by decide) rfl rfl rfl
    (by intro c hc
        simp only [choicesC4, List.mem_cons, List.not_mem_nil, or_false] at hc
        rcases hc with h | h <;> exact ⟨_, h⟩)
  have hmap : choicesC4.map choiceOut = [Json.str "Hi", Json.str "Earth"] := rfl
  exact ⟨by rw [← hmap]; exact h.1, by rw [← hmap]; exact h.2⟩

/-- C5: a choices entry carrying a `"text"` field contributes that field's
value verbatim at its own position of the output batch. -/
theorem choice_with_text_field_verbatim (b : Backend)
    (net : Nat → Request → AttemptOutcome) (prompts : List String)
    (i k : Nat) (r : Json) (choices : List Json)
    (fields : List (String × Json)) (v : Json) (hapi : b.api = "OpenAI")
    (hfail : ∀ j, j < i → net j (requestOf b prompts) = .connFail)
    (hsucc : net i (requestOf b prompts) = .success r) (hlt : i < b.max_tries)
    (herr : pyContains r "error" = .ok false)
    (hch : pySubscript r "choices" = .ok (Json.arr choices))
    (hlen : choices.length = prompts.length)
    (hobjs : ∀ c ∈ choices, ∃ fs, c = Json.obj fs)
    (hk : choices[k]? = some (Json.obj fields))
    (hfind : fields.find? (fun p => p.1 == "text") = some ("text", v)) :
    Backend.call b net prompts = .ok (choices.map choiceOut) ∧
    (choices.map choiceOut)[k]? = some v := by
  refine ⟨call_success_eq_map b net prompts i r choices hapi hfail hsucc hlt
    herr hch hlen hobjs, ?_⟩
  rw [List.getElem?_map, hk]
  simp [choiceOut, hfind]

/-- Witness for C5's theorem at the spec's example: entry 1 carries
`"text": "Earth"` and output 1 is exactly `"Earth"`. -/
theorem choice_with_text_field_verbatim_witness :
    Backend.call backendC4 netC4 ["Hello", "World"] =
      .ok (choicesC4.map choiceOut) ∧
    (choicesC4.map choiceOut)[1]? = some (Json.str "Earth") :=
  choice_with_text_field_verbatim backendC4 netC4 ["Hello", "World"]
    0 1 respC4 choicesC4 [("text", Json.str "Earth")] (Json.str "Earth")
    rfl (fun j hj => absurd hj (Nat.not_lt_zero j)) rfl (by decide) rfl rfl rfl
    (by intro c hc
        simp only [choicesC4, List.mem_cons, List.not_mem_nil, or_false] at hc
        rcases hc with h | h <;> exact ⟨_, h⟩)
    rfl rfl

/-- C6: a choices entry lacking a `"text"` field contributes the serialized
whole entry at its own position, and this is no error in strict mode nor in
non-strict mode: the same successful batch is returned for both values of the
flag. -/
theorem choice_without_text_field_serialized (b : Backend)
    (net : Nat → Request → AttemptOutcome) (prompts : List String)
    (i k : Nat) (r : Json) (choices : List Json)
    (fields : List (String × Json)) (hapi : b.api = "OpenAI")
    (hfail : ∀ j, j < i → net j (requestOf b prompts) = .connFail)
    (hsucc : net i (requestOf b prompts) = .success r) (hlt : i < b.max_tries)
    (herr : pyContains r "error" = .ok false)
    (hch : pySubscript r "choices" = .ok (Json.arr choices))
    (hlen : choices.length = prompts.length)
    (hobjs : ∀ c ∈ choices, ∃ fs, c = Json.obj fs)
    (hk : choices[k]? = some (Json.obj fields))
    (hfind : fields.find? (fun p => p.1 == "text") = none) :
    Backend.call { b with strict := true } net prompts =
      .ok (choices.map choiceOut) ∧
    Backend.call { b with strict := false } net prompts =
      .ok (choices.map choiceOut) ∧
    (choices.map choiceOut)[k]? =
      some (Json.str (json_dumps (Json.obj fields))) := by
  refine ⟨?_, ?_, ?_⟩
  · exact call_success_eq_map { b with strict := true } net prompts i r choices
      hapi hfail hsucc hlt herr hch hlen hobjs
  · exact call_success_eq_map { b with strict := false } net prompts i r
      choices hapi hfail hsucc hlt herr hch hlen hobjs
  · rw [List.getElem?_map, hk]
    simp [choiceOut, hfind]

/-- A choices entry without a `"text"` field, for the C6 witness. -/
def choicesC6 : List Json := [Json.obj [("foo", Json.num 1)]]

/-- Response whose single choices entry lacks `"text"`. -/
def respC6 : Json := Json.obj [("choices", Json.arr choicesC6)]

/-- Concrete backend used by the C6 witness. -/
def backendC6 : Backend :=
  { api := "OpenAI", config := [], strict := true, max_tries := 1,
    timeout := 30, url := Json.str "https://api.openai.com/v1/completions" }

/-- A network whose first attempt returns `respC6`. -/
def netC6 : Nat → Request → AttemptOutcome := fun _ _ => .success respC6

/-- Witness for C6's theorem at a concrete input: the lone output is the
serialized entry, in strict and in non-strict mode alike. -/
theorem choice_without_text_field_serialized_witness :
    Backend.call { backendC6 with strict := true } netC6 ["A"] =
      .ok (choicesC6.map choiceOut) ∧
    Backend.call { backendC6 with strict := false } netC6 ["A"] =
      .ok (choicesC6.map choiceOut) ∧
    (choicesC6.map choiceOut)[0]? =
      some (Json.str (json_dumps (Json.obj [("foo", Json.num 1)]))) :=
  choice_without_text_field_serialized backendC6 netC6 ["A"]
    0 0 respC6 choicesC6 [("foo", Json.num 1)]
    rfl (fun j hj => absurd hj (Nat.not_lt_zero j)) rfl (by decide) rfl rfl rfl
    (by intro c hc
        simp only [choicesC6, List.mem_cons, List.not_mem_nil, or_false] at hc
        exact ⟨_, hc⟩)
    rfl rfl

/-- C7: construction validates the API name against the closed supported set
`("OpenAI",)`: an unsupported name raises `ValueError` whose message mentions
the name (the model of construction takes no network parameter, mirroring
that `__init__` performs no request), while a supported name constructs
successfully. -/
theorem init_rejects_unsupported_api (api : String)
    (config : List (String × Json)) (strict : Bool) (mt tmo : Nat) :
    (api ∉ SUPPORTED_APIS →
      Backend.init api config strict mt tmo =
        .error (.valueError (api ++ " is not one of the supported APIs (" ++
          supportedApisRepr ++ ")."))
      ∧ ∃ pre post,
          api ++ " is not one of the supported APIs (" ++ supportedApisRepr ++
            ")." = pre ++ api ++ post)
    ∧ (api = "OpenAI" →
        ∃ b, Backend.init api config strict mt tmo = .ok b) := by
  constructor
  · intro h
    refine ⟨by simp [Backend.init, h], ?_⟩
    exact ⟨"", " is not one of the supported APIs (" ++ supportedApisRepr ++
      ").", by simp [String.append_assoc]⟩
  · intro h
    subst h
    cases hf : config.find? (fun p => p.1 == "url") with
    | some p =>
      exact ⟨{ api := "OpenAI", config := config.eraseP (fun q => q.1 == "url"),
               strict := strict, max_tries := mt, timeout := tmo,
               url := p.2 },
        by simp [Backend.init, SUPPORTED_APIS, hf]⟩
    | none =>
      exact ⟨{ api := "OpenAI", config := config, strict := strict,
               max_tries := mt, timeout := tmo,
               url := Json.str (((DEFAULT_URLS.find?
                 (fun q => q.1 == "OpenAI")).map Prod.snd).getD "") },
        by simp [Backend.init, SUPPORTED_APIS, hf]⟩

/-- Witness for C7's theorem: the name `"Foo"` is rejected with a message
mentioning it, the name `"OpenAI"` constructs. -/
theorem init_rejects_unsupported_api_witness :
    (Backend.init "Foo" [] true 1 30 =
      .error (.valueError ("Foo is not one of the supported APIs (" ++
        supportedApisRepr ++ ")."))
      ∧ ∃ pre post,
          "Foo is not one of the supported APIs (" ++ supportedApisRepr ++
            ")." = pre ++ "Foo" ++ post)
    ∧ ∃ b, Backend.init "OpenAI" [] true 1 30 = .ok b :=
  ⟨(init_rejects_unsupported_api "Foo" [] true 1 30).1 (by decide),
   (init_rejects_unsupported_api "OpenAI" [] true 1 30).2 rfl⟩

/-- C9: the call leaves the stored configuration untouched.  The source method
assigns no attribute of `self` and the dict unpacking
`\x7b"prompt": prompts, **self._config\x7d` copies `self._config`, so the
state-threaded embedding returns every configuration field of the instance
unchanged, whatever the network outcome. -/
theorem call_leaves_configuration_unchanged (b : Backend)
    (net : Nat → Request → AttemptOutcome) (prompts : List String) :
    (callOpenaiWithState b net prompts).2.api = b.api ∧
    (callOpenaiWithState b net prompts).2.config = b.config ∧
    (callOpenaiWithState b net prompts).2.strict = b.strict ∧
    (callOpenaiWithState b net prompts).2.max_tries = b.max_tries ∧
    (callOpenaiWithState b net prompts).2.timeout = b.timeout ∧
    (callOpenaiWithState b net prompts).2.url = b.url :=
  ⟨rfl, rfl, rfl, rfl, rfl, rfl⟩

/-- Python `d[k] = v` followed by `d[k]` yields `v`. -/
theorem dictGet_insert_self : ∀ (d : List (String × Json)) (k : String)
    (v : Json), dictGet (dictInsert d k v) k = some v := by
  intro d
  induction d with
  | nil => intro k v; simp [dictInsert, dictGet, List.find?]
  | cons p rest ih =>
    intro k v
    by_cases hp : (p.1 == k) = true
    · simp [dictInsert, hp, dictGet, List.find?]
    · simp only [dictInsert, hp, if_false, Bool.false_eq_true]
      rw [Bool.not_eq_true] at hp
      simp only [dictGet, List.find?, hp, cond_false]
      exact ih k v

/-- Python `d[k] = v` leaves lookups of other keys alone. -/
theorem dictGet_insert_ne : ∀ (d : List (String × Json)) (k k2 : String)
    (v : Json), (k == k2) = false →
    dictGet (dictInsert d k v) k2 = dictGet d k2 := by
  intro d
  induction d with
  | nil => intro k k2 v hne; simp [dictInsert, dictGet, List.find?, hne]
  | cons p rest ih =>
    intro k k2 v hne
    by_cases hp : (p.1 == k) = true
    · have hp2 : (p.1 == k2) = false := by rw [eq_of_beq hp]; exact hne
      simp [dictInsert, hp, dictGet, List.find?, hne, hp2]
    · rw [Bool.not_eq_true] at hp
      by_cases hq : (p.1 == k2) = true
      · simp [dictInsert, hp, dictGet, List.find?, hq]
      · rw [Bool.not_eq_true] at hq
        simp only [dictInsert, hp, if_false, Bool.false_eq_true]
        simp only [dictGet, List.find?, hq, cond_false]
        exact ih k k2 v hne

/-- Merging a dict that does not contain key `k` does not change the lookup
of `k`. -/
theorem dictGet_merge_of_not_mem :
    ∀ (d2 d1 : List (String × Json)) (k : String),
      dictGetLast d2 k = none →
      dictGet (dictMerge d1 d2) k = dictGet d1 k := by
  intro d2
  induction d2 with
  | nil => intro d1 k _; rfl
  | cons a rest ih =>
    intro d1 k h
    have hsplit : rest.reverse.find? (fun p => p.1 == k) = none ∧
        (a.1 == k) = false := by
      unfold dictGetLast at h
      rw [List.reverse_cons, List.find?_append] at h
      cases hx : rest.reverse.find? (fun p => p.1 == k) with
      | some p => rw [hx] at h; simp at h
      | none =>
        rw [hx] at h
        refine ⟨rfl, ?_⟩
        by_cases hak : (a.1 == k) = true
        · simp [List.find?, hak] at h
        · simpa using hak
    have hrest : dictGetLast rest k = none := by
      unfold dictGetLast
      rw [hsplit.1]
      rfl
    rw [show dictMerge d1 (a :: rest) =
        dictMerge (dictInsert d1 a.1 a.2) rest from rfl,
      ih (dictInsert d1 a.1 a.2) k hrest]
    exact dictGet_insert_ne d1 a.1 k a.2 hsplit.2

/-- Merging a dict whose last `k`-entry carries `v` makes the lookup of `k`
yield `v`. -/
theorem dictGet_merge_of_mem :
    ∀ (d2 d1 : List (String × Json)) (k : String) (v : Json),
      dictGetLast d2 k = some v →
      dictGet (dictMerge d1 d2) k = some v := by
  intro d2
  induction d2 with
  | nil => intro d1 k v h; simp [dictGetLast, List.find?] at h
  | cons a rest ih =>
    intro d1 k v h
    rw [show dictMerge d1 (a :: rest) =
        dictMerge (dictInsert d1 a.1 a.2) rest from rfl]
    by_cases hr : dictGetLast rest k = none
    · have hr' : rest.reverse.find? (fun p => p.1 == k) = none := by
        unfold dictGetLast at hr
        cases hfind : rest.reverse.find? (fun p => p.1 == k) with
        | none => rfl
        | some p => rw [hfind] at hr; simp at hr
      have h2 : (a.1 == k) = true ∧ a.2 = v := by
        unfold dictGetLast at h
        rw [List.reverse_cons, List.find?_append, hr'] at h
        by_cases hak : (a.1 == k) = true
        · refine ⟨hak, ?_⟩
          simp [List.find?, hak] at h
          exact h
        · simp [List.find?, hak] at h
        -- with `a.1 == k` false the singleton lookup is empty, refuting `h`
      rw [dictGet_merge_of_not_mem rest (dictInsert d1 a.1 a.2) k hr]
      rw [← eq_of_beq h2.1, ← h2.2]
      exact dictGet_insert_self d1 a.1 a.2
    · obtain ⟨w, hw⟩ := Option.ne_none_iff_exists.mp hr
      have hlast : dictGetLast (a :: rest) k = some w := by
        unfold dictGetLast at hw ⊢
        rw [List.reverse_cons, List.find?_append]
        cases hfind : rest.reverse.find? (fun p => p.1 == k) with
        | none => rw [hfind] at hw; simp at hw
        | some p =>
          rw [hfind] at hw
          simp at hw
          simp [hw]
      have hvw : w = v := by
        have hsw : some w = some v := by rw [← hlast, h]
        exact Option.some.inj hsw
      exact hvw ▸ ih (dictInsert d1 a.1 a.2) k w hw.symm

/-- For a dict with pairwise-distinct keys — every genuine Python dict —
last-occurrence lookup agrees with first-occurrence lookup. -/
theorem dictGetLast_eq_dictGet : ∀ (d : List (String × Json)) (k : String),
    (d.map Prod.fst).Nodup → dictGetLast d k = dictGet d k := by
  intro d
  induction d with
  | nil => intro k _; rfl
  | cons a rest ih =>
    intro k h
    rw [List.map_cons, List.nodup_cons] at h
    obtain ⟨hnotmem, hnd⟩ := h
    unfold dictGetLast dictGet
    rw [List.reverse_cons, List.find?_append]
    by_cases hak : (a.1 == k) = true
    · have hk : a.1 = k := eq_of_beq hak
      have hrest : ∀ x ∈ rest, ¬((fun p => p.1 == k) x = true) := by
        intro x hx hpx
        exact hnotmem (List.mem_map.mpr
          ⟨x, hx, show x.1 = a.1 by rw [eq_of_beq hpx, hk]⟩)
      have h1 : rest.reverse.find? (fun p => p.1 == k) = none := by
        rw [List.find?_eq_none]
        intro x hx
        exact hrest x (List.mem_reverse.mp hx)
      have h2 : rest.find? (fun p => p.1 == k) = none := by
        rw [List.find?_eq_none]
        exact hrest
      rw [h1]
      simp [List.find?, hak, h2]
    · rw [Bool.not_eq_true] at hak
      have hsing : List.find? (fun p => p.1 == k) [a] = none := by
        simp [List.find?, hak]
      rw [hsing, Option.or_none]
      simp only [List.find?, hak, cond_false]
      exact ih k hnd

/-- C10 (implicit): the merge `\x7b"prompt": prompts, **config\x7d` lets a
configured `"prompt"` key silently override the input prompt batch: the body's
`prompt` field is the configured value, whatever prompts were passed. -/
theorem config_prompt_overrides_inputs (config : List (String × Json))
    (prompts : List String) (u : Json)
    (hnd : (config.map Prod.fst).Nodup)
    (hu : dictGet config "prompt" = some u) :
    dictGet (buildJsonData config prompts) "prompt" = some u := by
  have hlast : dictGetLast config "prompt" = some u := by
    rw [dictGetLast_eq_dictGet config "prompt" hnd]
    exact hu
  exact dictGet_merge_of_mem config
    [("prompt", Json.arr (prompts.map Json.str))] "prompt" u hlast

/-- Witness for C10's theorem: a config carrying `"prompt": "configured"`
wins over the prompt batch `["a", "b"]`. -/
theorem config_prompt_overrides_inputs_witness :
    dictGet (buildJsonData [("prompt", Json.str "configured")] ["a", "b"])
      "prompt" = some (Json.str "configured") :=
  config_prompt_overrides_inputs [("prompt", Json.str "configured")]
    ["a", "b"] (Json.str "configured") (by simp) rfl

/-- C8: construction pops `"url"` out of the parameter mapping when present
(the stored config is the mapping without that key) and otherwise falls back
to the provider default; the body of every request built by a call is the
`prompt` entry holding the input prompt array merged with the stored
(url-free) config. -/
theorem init_resolves_url_and_request_body (api : String)
    (config : List (String × Json)) (strict : Bool) (mt tmo : Nat)
    (b : Backend) (prompts : List String)
    (hinit : Backend.init api config strict mt tmo = .ok b) :
    ((∀ u, config.find? (fun p => p.1 == "url") = some ("url", u) →
        b.url = u ∧ b.config = config.eraseP (fun p => p.1 == "url"))
     ∧ (config.find? (fun p => p.1 == "url") = none →
        b.url = Json.str "https://api.openai.com/v1/completions" ∧
        b.config = config))
    ∧ (requestOf b prompts).body =
        dictMerge [("prompt", Json.arr (prompts.map Json.str))] b.config := by
  have hmem : api ∈ SUPPORTED_APIS := by
    by_contra hn
    simp [Backend.init, hn] at hinit
  have hapi : api = "OpenAI" := by simpa [SUPPORTED_APIS] using hmem
  refine ⟨⟨?_, ?_⟩, rfl⟩
  · intro u hu
    simp only [Backend.init, hmem, if_pos, hu] at hinit
    have hb := Except.ok.inj hinit
    subst hb
    exact ⟨rfl, rfl⟩
  · intro hnone
    subst hapi
    simp only [Backend.init, SUPPORTED_APIS, hnone, List.mem_cons,
      List.not_mem_nil, or_false, if_true] at hinit
    have hb := Except.ok.inj hinit
    subst hb
    exact ⟨rfl, rfl⟩

/-- The backend produced by constructing with a config that carries both a
`"url"` override and another parameter. -/
def backendC8 : Backend :=
  { api := "OpenAI", config := [("temperature", Json.num 0)], strict := true,
    max_tries := 1, timeout := 30, url := Json.str "http://localhost" }

/-- Witness for C8's theorem at a concrete input: `"url"` is popped into the
resolved URL, the stored config keeps only the other key, and the request
body is the prompt array merged with that config. -/
theorem init_resolves_url_and_request_body_witness :
    backendC8.url = Json.str "http://localhost" ∧
    backendC8.config = [("temperature", Json.num 0)] ∧
    (requestOf backendC8 ["A"]).body =
      dictMerge [("prompt", Json.arr [Json.str "A"])] backendC8.config := by
  have hinit : Backend.init "OpenAI"
      [("url", Json.str "http://localhost"), ("temperature", Json.num 0)]
      true 1 30 = .ok backendC8 := rfl
  have h := init_resolves_url_and_request_body "OpenAI"
    [("url", Json.str "http://localhost"), ("temperature", Json.num 0)]
    true 1 30 backendC8 ["A"] hinit
  obtain ⟨⟨h1, _⟩, h3⟩ := h
  have h2 := h1 (Json.str "http://localhost") rfl
  refine ⟨h2.1, ?_, h3⟩
  rw [h2.2]
  rfl
